import Mathlib

set_option maxHeartbeats 1000000

/-!
Verification of the pico-clock time-acquisition and arbitration subsystem.

Shallow embedding of the relevant parts of the source tree:
  - src/lib/ds3231/ds3231.py       (DS3231 register codec)
  - src/lib/time_source.py         (time-source arbiter)
  - src/lib/networking.py          (wifi link manager and NTP client)
  - src/config.py                  (the constants the above read)

Pure functions become Lean functions; stateful methods become explicit
state-passing functions over structures mirroring the relevant instance
attributes, with environment behavior (radio status, DNS answers, NTP
server responses, device faults) passed in as explicit oracle arguments.
Fallible Python code (exceptions, bytearray range errors) is modelled with
Option or explicit outcome types.  Where useful, functions additionally
return a trace (log lines emitted, pool indices probed, retries made) so
that the control flow of the original code is observable in theorems.
-/

namespace PicoClock

/-- A civil time value (year, month, day, hours, minutes, seconds).
Fields are Int since Python integers are unbounded and signed. -/
structure CivilTime where
  year : Int
  month : Int
  day : Int
  hours : Int
  minutes : Int
  seconds : Int
deriving DecidableEq, Repr

/-- Leap-year rule of the civil calendar, used by the CivilTime invariant
stated in the spec (day valid for month and year). -/
def isLeapYear (y : Int) : Bool :=
  (y % 4 == 0 && y % 100 != 0) || y % 400 == 0

/-- Days in the given month of the given year in the civil calendar. -/
def daysInMonth (y m : Int) : Int :=
  if m == 2 then (if isLeapYear y then 29 else 28)
  else if m == 4 || m == 6 || m == 9 || m == 11 then 30
  else 31

/-- The CivilTime invariant stated by the spec: month in [1,12], day valid
for month and year, hour in [0,23], minute and second in [0,59]. -/
def validCivilTime (t : CivilTime) : Bool :=
  decide (1 ≤ t.month) && decide (t.month ≤ 12) &&
  decide (1 ≤ t.day) && decide (t.day ≤ daysInMonth t.year t.month) &&
  decide (0 ≤ t.hours) && decide (t.hours ≤ 23) &&
  decide (0 ≤ t.minutes) && decide (t.minutes ≤ 59) &&
  decide (0 ≤ t.seconds) && decide (t.seconds ≤ 59)

namespace DS3231

/-- bcd_to_decimal from ds3231.py: `(bcd >> 4) * 10 + (bcd & 0x0F)`.
It is applied to register bytes, hence Nat. -/
def bcd_to_decimal (bcd : Nat) : Nat :=
  (bcd >>> 4) * 10 + (bcd &&& 0x0F)

/-- decimal_to_bcd from ds3231.py: `((decimal // 10) << 4) | (decimal % 10)`.
Python floor division and floor modulus are Int.fdiv and (for the positive
divisor 10) Int.emod.  The shifted quotient has a zero low nibble and the
remainder lies below 16, so the bitwise or equals addition, also for
negative quotients in two's complement. -/
def decimal_to_bcd (decimal : Int) : Int :=
  Int.fdiv decimal 10 * 16 + Int.emod decimal 10

/-- The seven DS3231 time registers 0x00-0x06 as stored bytes: seconds,
minutes, hours, day-of-week, date, month, year. -/
structure Registers where
  seconds : Nat
  minutes : Nat
  hours : Nat
  day : Nat
  date : Nat
  month : Nat
  year : Nat
deriving DecidableEq, Repr

/-- A Python bytearray cell accepts exactly the values 0 <= v < 256; any
other assigned value raises ValueError. -/
def byteOk (v : Int) : Bool :=
  decide (0 ≤ v) && decide (v < 256)

/-- DS3231.set_time: encode (year, month, day, hours, minutes, seconds)
into the seven time registers (day-of-week written as 0, year stored as
year - 2000) and write them over I2C.  The write is modelled as Option:
none when some computed register value does not fit a bytearray cell. -/
def set_time (t : CivilTime) : Option Registers :=
  let d0 := decimal_to_bcd t.seconds
  let d1 := decimal_to_bcd t.minutes
  let d2 := decimal_to_bcd t.hours
  let d3 := decimal_to_bcd 0
  let d4 := decimal_to_bcd t.day
  let d5 := decimal_to_bcd t.month
  let d6 := decimal_to_bcd (t.year - 2000)
  if byteOk d0 && byteOk d1 && byteOk d2 && byteOk d3 && byteOk d4 &&
      byteOk d5 && byteOk d6 then
    some { seconds := d0.toNat, minutes := d1.toNat, hours := d2.toNat,
           day := d3.toNat, date := d4.toNat, month := d5.toNat,
           year := d6.toNat }
  else none

/-- DS3231.read_time: read the seven time registers and decode the tuple
(year, month, day, hours, minutes, seconds), applying the source's masks
(seconds and minutes 0x7F, hours and date 0x3F, month 0x1F, year unmasked)
and adding 2000 to the year. -/
def read_time (r : Registers) : CivilTime :=
  { year := Int.ofNat (bcd_to_decimal r.year) + 2000
    month := Int.ofNat (bcd_to_decimal (r.month &&& 0x1F))
    day := Int.ofNat (bcd_to_decimal (r.date &&& 0x3F))
    hours := Int.ofNat (bcd_to_decimal (r.hours &&& 0x3F))
    minutes := Int.ofNat (bcd_to_decimal (r.minutes &&& 0x7F))
    seconds := Int.ofNat (bcd_to_decimal (r.seconds &&& 0x7F)) }

/-- The set-then-get round trip through the register codec. -/
def roundTrip (t : CivilTime) : Option CivilTime :=
  (set_time t).map read_time

end DS3231

namespace TimeSource

/-- TimeSyncStatus from time_source.py: one named sync flag. -/
structure TimeSyncStatus where
  name : String
  status : Bool
deriving DecidableEq, Repr

/-- The two concrete SpecificTimeSource objects TimeSource can select:
self.external_rtc and self.rtc (the internal RTC). -/
inductive SpecificSource
  | externalRtc
  | internalRtc
deriving DecidableEq, Repr

/-- A log line recorded by the embedding: which uLogger method the source
calls (info or warn) and with what message. -/
inductive LogEvent
  | info (msg : String)
  | warn (msg : String)
deriving DecidableEq, Repr

/-- Whether a log line was emitted at warning level. -/
def isWarn : LogEvent → Bool
  | LogEvent.info _ => false
  | LogEvent.warn _ => true

/-- The TimeSource fields read and written by the selection logic.
external_rtc_configured stands for the probe self.external_rtc.is_configured().
Modelled from the spec: ExternalRTC.is_configured is absent from the
source files (only its call sites in time_source.py are present); per the
spec the external device "exposes a bus-scan-based presence probe" and the
fallback prefers the external RTC "if one is physically present and
initialized", so the probe's outcome is carried as a boolean field. -/
structure State where
  time_sync_status : List TimeSyncStatus
  external_rtc_configured : Bool
  time_source : Option SpecificSource
  selected_time_source_name : Option String
deriving DecidableEq, Repr

/-- TimeSource.select_time_source: store the source object; when the
selection name changes, log the optional message (info level) and the new
selection, and record the new name.  Returns the new state together with
the log lines emitted. -/
def select_time_source (st : State) (source_name : String)
    (source : SpecificSource) (message : String) : State × List LogEvent :=
  let st1 := { st with time_source := some source }
  if st1.selected_time_source_name = some source_name then (st1, [])
  else
    (({ st1 with selected_time_source_name := some source_name }),
      (if message = "" then [] else [LogEvent.info message]) ++
        [LogEvent.info ("Selected time source: " ++ source_name)])

/-- The loop of TimeSource.update_time_source over the status entries:
skip the NTP entry and entries whose flag is false; select the external
RTC object for "RTC" and the internal RTC object for "PRTC"; any other
entry (GPS) falls through.  Returns the selecting name and object, or
none when the loop runs out. -/
def scanStatusList : List TimeSyncStatus → Option (String × SpecificSource)
  | [] => none
  | e :: rest =>
    if e.name = "NTP" || e.status = false then scanStatusList rest
    else if e.name = "RTC" then some ("RTC", SpecificSource.externalRtc)
    else if e.name = "PRTC" then some ("PRTC", SpecificSource.internalRtc)
    else scanStatusList rest

/-- Trace of one update_time_source call: the log lines it emitted and
whether the final default-fallback branch ran. -/
structure UpdateTrace where
  events : List LogEvent
  fallback : Bool
deriving DecidableEq, Repr

/-- TimeSource.update_time_source: pick the first selecting entry of the
status list; if none selects, fall back to the external RTC when the probe
reports one, else to the internal RTC, passing the fallback message to
select_time_source. -/
def update_time_source (st : State) : State × UpdateTrace :=
  match scanStatusList st.time_sync_status with
  | some (nm, src) =>
    let r := select_time_source st nm src ""
    (r.1, { events := r.2, fallback := false })
  | none =>
    if st.external_rtc_configured then
      let r := select_time_source st "RTC" SpecificSource.externalRtc
        "No confirmed sync source active, falling back to external RTC"
      (r.1, { events := r.2, fallback := true })
    else
      let r := select_time_source st "PRTC" SpecificSource.internalRtc
        "No confirmed sync source active and no external RTC, falling back to internal RTC"
      (r.1, { events := r.2, fallback := true })

/-- TimeSource.set_time_sync_status: update the status of the first entry
whose name matches (the source writes the field only on change, which
leaves the same list). -/
def set_time_sync_status : List TimeSyncStatus → String → Bool → List TimeSyncStatus
  | [], _, _ => []
  | e :: rest, nm, status =>
    if e.name = nm then { name := e.name, status := status } :: rest
    else e :: set_time_sync_status rest nm status

/-- The status table built in TimeSource.__init__: GPS, NTP, RTC, PRTC in
that order, all false. -/
def initTable : List TimeSyncStatus :=
  [{ name := "GPS", status := false }, { name := "NTP", status := false },
   { name := "RTC", status := false }, { name := "PRTC", status := false }]

/-- A status table of the four standard entries with the given flags. -/
def mkTable (gps ntp rtc prtc : Bool) : List TimeSyncStatus :=
  [{ name := "GPS", status := gps }, { name := "NTP", status := ntp },
   { name := "RTC", status := rtc }, { name := "PRTC", status := prtc }]

/-- The selection part of TimeSource.__init__: the table starts all false,
time_source is primed with the internal RTC object and update_time_source
then runs (at that point necessarily through its fallback).
extConfigured is the outcome of init_external_rtc's probe. -/
def initState (extConfigured : Bool) : State × UpdateTrace :=
  update_time_source
    { time_sync_status := initTable
      external_rtc_configured := extConfigured
      time_source := some SpecificSource.internalRtc
      selected_time_source_name := none }

/-- A TimeSource state over the standard four-entry table with the given
flags, probe outcome, current selection and recorded selection name. -/
def mkState (gps ntp rtc prtc extConf : Bool)
    (ts0 : Option SpecificSource) (nm0 : Option String) : State :=
  { time_sync_status := mkTable gps ntp rtc prtc
    external_rtc_configured := extConf
    time_source := ts0
    selected_time_source_name := nm0 }

/-- One iteration of TimeSource.async_check_time_sync_status: copy the
wifi object's NTP and PRTC flags into the status table, then re-run
update_time_source. -/
def checker_iteration (st : State) (ntpStatus prtcStatus : Bool) :
    State × UpdateTrace :=
  let t1 := set_time_sync_status st.time_sync_status "NTP" ntpStatus
  let t2 := set_time_sync_status t1 "PRTC" prtcStatus
  update_time_source { st with time_sync_status := t2 }

/-- How a call hands the civil-time tuple to a concrete source's set_time,
whose declared signature (SpecificTimeSource.set_time, and both concrete
back-ends InternalRTC.set_time and ExternalRTC.set_time) takes the six
fields as positional parameters. -/
inductive SetTimeCall
  | tupleAsSingleArg (t : CivilTime)
  | unpacked (t : CivilTime)
deriving DecidableEq, Repr

/-- Outcome of one delegate call. -/
inductive PyOutcome
  | ok
  | typeError
  | deviceError
deriving DecidableEq, Repr

/-- Calling a concrete source's 6-parameter set_time: supplying the whole
tuple as one positional argument fails Python arity checking before the
body runs (TypeError); a correctly unpacked call succeeds unless the
device itself errors, which is environment behavior. -/
def callSetTime (deviceFails : Bool) : SetTimeCall → PyOutcome
  | SetTimeCall.tupleAsSingleArg _ => PyOutcome.typeError
  | SetTimeCall.unpacked _ =>
    if deviceFails then PyOutcome.deviceError else PyOutcome.ok

/-- Device behavior during one TimeSource.set_time call: whether the
source selected at the first attempt, and the one selected at the retry,
raise a device error when actually invoked. -/
structure SetTimeEnv where
  failFirst : SpecificSource → Bool
  failRetry : SpecificSource → Bool

/-- Trace of one TimeSource.set_time call: the exception that propagated
(if any), how many update_time_source re-evaluations ran, and every
delegate call made (selected source, call shape, outcome). -/
structure SetTimeRun where
  raised : Option PyOutcome
  updates : Nat
  attempts : List (SpecificSource × SetTimeCall × PyOutcome)
  finalState : State
deriving Repr

/-- TimeSource.set_time, lines 140-149 of time_source.py: first
`self.time_source.set_time(time_tuple)` (the whole tuple as a single
positional argument); on any exception run update_time_source and retry
with `self.time_source.set_time(*time_tuple)`; a second exception
propagates to the caller. -/
def set_time (env : SetTimeEnv) (st : State) (t : CivilTime) : SetTimeRun :=
  let sel1 := st.time_source.getD SpecificSource.internalRtc
  let a1 := callSetTime (env.failFirst sel1) (SetTimeCall.tupleAsSingleArg t)
  match a1 with
  | PyOutcome.ok =>
    { raised := none, updates := 0,
      attempts := [(sel1, SetTimeCall.tupleAsSingleArg t, a1)],
      finalState := st }
  | _ =>
    let st2 := (update_time_source st).1
    let sel2 := st2.time_source.getD SpecificSource.internalRtc
    let a2 := callSetTime (env.failRetry sel2) (SetTimeCall.unpacked t)
    match a2 with
    | PyOutcome.ok =>
      { raised := none, updates := 1,
        attempts := [(sel1, SetTimeCall.tupleAsSingleArg t, a1),
                     (sel2, SetTimeCall.unpacked t, a2)],
        finalState := st2 }
    | e =>
      { raised := some e, updates := 1,
        attempts := [(sel1, SetTimeCall.tupleAsSingleArg t, a1),
                     (sel2, SetTimeCall.unpacked t, a2)],
        finalState := st2 }

end TimeSource

namespace WirelessNetwork

/-- The NTP-relevant mutable fields of WirelessNetwork. -/
structure NtpState where
  ntp_servers : List String
  ntp_server_index : Nat
  ntp_address : Option (String × Nat)
  ntp_sync_status : Bool
  prtc_sync_status : Bool
  ntp_last_synced_timestamp : Nat
deriving DecidableEq, Repr

/-- self.ntp_port from __init__. -/
def ntp_port : Nat := 123

/-- The fields as __init__ leaves them (before any DNS refresh): empty
pool, rotation index 0, no cached address, both sync flags false, never
synced. -/
def initNtpState : NtpState :=
  { ntp_servers := [], ntp_server_index := 0, ntp_address := none,
    ntp_sync_status := false, prtc_sync_status := false,
    ntp_last_synced_timestamp := 0 }

/-- Environment of one refresh_ntp_servers call: the outcome of
has_valid_network_config() and of getaddrinfo (none when the lookup
raised; otherwise the IPv4 address of each returned entry, in order). -/
structure DnsEnv where
  has_valid_network_config : Bool
  addrinfo : Option (List String)

/-- One step of the resolved_servers loop in refresh_ntp_servers: append
the address unless it is already present. -/
def addUnique (acc : List String) (ip : String) : List String :=
  if ip ∈ acc then acc else acc ++ [ip]

/-- The resolved_servers loop of refresh_ntp_servers: keep each address
once, in first-seen order. -/
def resolveList (entries : List String) : List String :=
  entries.foldl addUnique []

/-- refresh_ntp_servers: fail closed (False with the state unchanged) when
the network lacks a valid DHCP IP/DNS configuration, the DNS lookup
raises, or no address comes back; otherwise install the deduplicated
pool, reset the rotation index to 0 and cache the first server with
ntp_port as ntp_address. -/
def refresh_ntp_servers (env : DnsEnv) (s : NtpState) : Bool × NtpState :=
  if env.has_valid_network_config = false then (false, s)
  else
    match env.addrinfo with
    | none => (false, s)
    | some entries =>
      match resolveList entries with
      | [] => (false, s)
      | ip0 :: rest =>
        (true, { s with
                 ntp_servers := ip0 :: rest, ntp_server_index := 0,
                 ntp_address := some (ip0, ntp_port) })

/-- The attempt loop of async_get_timestamp_from_ntp.  answers gives the
decoded timestamp a server returns within the 5 s timeout (none for no
valid response or a socket error).  Arguments after the pool and the
rotation start are the current attempt number and the remaining attempt
count (the loop runs server_count attempts).  Returns the first success
as (pool index, timestamp) together with the sequence of pool indices
probed, in order. -/
def probeAux (answers : String → Option Nat) (servers : List String)
    (start : Nat) : Nat → Nat → Option (Nat × Nat) × List Nat
  | _, 0 => (none, [])
  | attempt, Nat.succ remaining =>
    let idx := (start + attempt) % servers.length
    match answers (servers.getD idx "") with
    | some ts => (some (idx, ts), [idx])
    | none =>
      let rest := probeAux answers servers start (attempt + 1) remaining
      (rest.1, idx :: rest.2)

/-- Per-call environment of async_get_timestamp_from_ntp: the outcome of
the has_valid_network_config() check at entry, the DNS environment for any
refresh_ntp_servers call made during the call, and the pool servers'
responses during the call's pass. -/
structure SyncCallEnv where
  valid : Bool
  dns : DnsEnv
  answers : String → Option Nat

/-- Trace of one async_get_timestamp_from_ntp call: the returned
timestamp, the final state, the probe-index sequence of each pool pass
that ran, and how many refresh_ntp_servers calls the exhaustion-retry
logic made. -/
structure SyncOutcome where
  result : Option Nat
  state : NtpState
  probes : List (List Nat)
  retryRefreshes : Nat

/-- Outcome of the body of async_get_timestamp_from_ntp up to and
including its pool pass, shared by the two entry points below: one of the
guard returns fired (invalid config, failed initial resolution, empty
pool), the pass succeeded (timestamp, updated state, probe sequence), or
the pass exhausted the pool. -/
inductive PassOutcome
  | earlyNone (s : NtpState)
  | success (ts : Nat) (s : NtpState) (seq : List Nat)
  | exhausted (s : NtpState) (seq : List Nat)

/-- The pool iteration of async_get_timestamp_from_ntp once the pool is
resolved: the server_count == 0 guard, then the attempt loop; on the
first valid response advance ntp_server_index to the answering index and
cache its address with ntp_port. -/
def passOnPool (env : SyncCallEnv) (s1 : NtpState) : PassOutcome :=
  if s1.ntp_servers.length = 0 then PassOutcome.earlyNone s1
  else
    match probeAux env.answers s1.ntp_servers s1.ntp_server_index 0
        s1.ntp_servers.length with
    | (some (idx, ts), seq) =>
      PassOutcome.success ts
        { s1 with
          ntp_server_index := idx,
          ntp_address := some (s1.ntp_servers.getD idx "", ntp_port) }
        seq
    | (none, seq) => PassOutcome.exhausted s1 seq

/-- The shared body of async_get_timestamp_from_ntp: return early when
the network config is invalid; resolve the pool first when it is empty,
returning early when that fails; then run the pool iteration. -/
def syncPass (env : SyncCallEnv) (s : NtpState) : PassOutcome :=
  if env.valid = false then PassOutcome.earlyNone s
  else if s.ntp_servers.isEmpty then
    let r := refresh_ntp_servers env.dns s
    if r.1 = false then PassOutcome.earlyNone s
    else passOnPool env r.2
  else passOnPool env s

/-- async_get_timestamp_from_ntp called with allow_dns_refresh_retry set
to False: one pool pass, no DNS-refresh retry on exhaustion. -/
def getTimestampNoRetry (env : SyncCallEnv) (s : NtpState) : SyncOutcome :=
  match syncPass env s with
  | PassOutcome.earlyNone s1 =>
    { result := none, state := s1, probes := [], retryRefreshes := 0 }
  | PassOutcome.success ts s1 seq =>
    { result := some ts, state := s1, probes := [seq], retryRefreshes := 0 }
  | PassOutcome.exhausted s1 seq =>
    { result := none, state := s1, probes := [seq], retryRefreshes := 0 }

/-- async_get_timestamp_from_ntp with allow_dns_refresh_retry at its
default True: on pool exhaustion, refresh DNS once and, when that refresh
succeeds, rerun the whole function once with the retry disabled.
envRetry is the environment of that inner call. -/
def getTimestampWithRetry (env envRetry : SyncCallEnv) (s : NtpState) :
    SyncOutcome :=
  match syncPass env s with
  | PassOutcome.earlyNone s1 =>
    { result := none, state := s1, probes := [], retryRefreshes := 0 }
  | PassOutcome.success ts s1 seq =>
    { result := some ts, state := s1, probes := [seq], retryRefreshes := 0 }
  | PassOutcome.exhausted s1 seq =>
    let r := refresh_ntp_servers env.dns s1
    if r.1 = true then
      let inner := getTimestampNoRetry envRetry r.2
      { result := inner.result, state := inner.state,
        probes := seq :: inner.probes,
        retryRefreshes := 1 + inner.retryRefreshes }
    else
      { result := none, state := r.2, probes := [seq], retryRefreshes := 1 }

/-- The first pool index a call probed, if it probed at all. -/
def firstProbed (o : SyncOutcome) : Option Nat :=
  match o.probes with
  | [] => none
  | p :: _ => p.head?

/-- Concrete fixture: a cached pool of two servers with the rotation
index on the second one. -/
def demoPool : NtpState :=
  { ntp_servers := ["a", "b"], ntp_server_index := 1, ntp_address := none,
    ntp_sync_status := false, prtc_sync_status := false,
    ntp_last_synced_timestamp := 0 }

/-- Concrete fixture: a cached pool of one server. -/
def demoPoolSingle : NtpState :=
  { ntp_servers := ["a"], ntp_server_index := 0, ntp_address := none,
    ntp_sync_status := false, prtc_sync_status := false,
    ntp_last_synced_timestamp := 0 }

/-- Concrete fixture: a ready network where only server "a" answers. -/
def demoEnvAnswerA : SyncCallEnv :=
  { valid := true
    dns := { has_valid_network_config := false, addrinfo := none }
    answers := fun h => if h = "a" then some 7 else none }

/-- Concrete fixture: a ready network where no server answers and DNS
re-resolution yields the single server "c". -/
def demoEnvNoAnswer : SyncCallEnv :=
  { valid := true
    dns := { has_valid_network_config := true, addrinfo := some ["c"] }
    answers := fun _ => none }

/-- The state-changing steps of WirelessNetwork that write the sync flags
or the pool: the return branches of async_sync_rtc_from_ntp, plus
refresh_ntp_servers calls. -/
inductive NetEvent
  | syncSkippedInProgress
  | syncNoNetwork
  | syncTimestampFailed
  | syncSucceeded (now : Nat)
  | syncRaised
  | poolRefresh (dns : DnsEnv)

/-- The flag assignments each event performs, read off the corresponding
branch of async_sync_rtc_from_ntp (re-entrant skip: nothing; no network:
ntp_sync_status False; timestamp None: ntp_sync_status False; success:
ntp_sync_status True, prtc_sync_status True, last-synced recorded;
exception: ntp_sync_status False) and off refresh_ntp_servers. -/
def step (s : NtpState) : NetEvent → NtpState
  | NetEvent.syncSkippedInProgress => s
  | NetEvent.syncNoNetwork => { s with ntp_sync_status := false }
  | NetEvent.syncTimestampFailed => { s with ntp_sync_status := false }
  | NetEvent.syncSucceeded now =>
    { s with
      ntp_sync_status := true, prtc_sync_status := true,
      ntp_last_synced_timestamp := now }
  | NetEvent.syncRaised => { s with ntp_sync_status := false }
  | NetEvent.poolRefresh dns => (refresh_ntp_servers dns s).2

/-- Run a sequence of events. -/
def runEvents (s : NtpState) : List NetEvent → NtpState
  | [] => s
  | e :: rest => runEvents (step s e) rest

/-- Whether an event is the successful-sync branch. -/
def isSuccess : NetEvent → Bool
  | NetEvent.syncSucceeded _ => true
  | _ => false

/-- Radio status codes from __init__ (the CYW43_LINK_* attributes). -/
def CYW43_LINK_UP : Int := 3

def CYW43_LINK_FAIL : Int := -1

def CYW43_LINK_NONET : Int := -2

def CYW43_LINK_BADAUTH : Int := -3

/-- Result of wait_status: the expected status was reached, the poll
budget ran out, or the method raised (ValueError on BADAUTH, a plain
Exception on FAIL and NONET). -/
inductive WaitResult
  | reached
  | timedOut
  | raisedAuth
  | raisedConn
deriving DecidableEq, Repr

/-- The polling loop of wait_status.  statusAt i is the radio status that
dump_status() observes at the i-th poll; the second Nat is the remaining
poll budget (ceil(timeout / tick_sleep) at entry). -/
def waitStatusAux (statusAt : Nat → Int) (expected : Int) :
    Nat → Nat → WaitResult
  | _, 0 => WaitResult.timedOut
  | i, Nat.succ rest =>
    let status := statusAt i
    if status = expected then WaitResult.reached
    else if status = CYW43_LINK_BADAUTH then WaitResult.raisedAuth
    else if status = CYW43_LINK_FAIL || status = CYW43_LINK_NONET then
      WaitResult.raisedConn
    else waitStatusAux statusAt expected (i + 1) rest

/-- wait_status from networking.py: poll dump_status up to polls times
(ceil(timeout / tick_sleep)); return True on the expected status, raise
ValueError on BADAUTH, raise on FAIL or NONET, and return False when the
budget runs out. -/
def wait_status (statusAt : Nat → Int) (expected : Int) (polls : Nat) :
    WaitResult :=
  waitStatusAux statusAt expected 0 polls

/-- Outcome of one connect_wifi call as observed by check_network_access:
returned normally, raised ValueError (authentication failure, produced by
wait_status on BADAUTH and re-raised unchanged through attempt_ap_connect
and connect_wifi), or raised any other exception (retryable). -/
inductive ConnectOutcome
  | success
  | authError
  | connError
deriving DecidableEq, Repr

/-- Environment of one check_network_access call: readyBefore i is the
value of get_status() == 3 and has_valid_network_config() at the i-th
evaluation of the while condition, attempt i the outcome of the i-th
connect_wifi call, readyAfter the post-loop re-check of the same pair. -/
structure CheckEnv where
  readyBefore : Nat → Bool
  attempt : Nat → ConnectOutcome
  readyAfter : Bool

/-- config.WIFI_CONNECT_RETRIES from config.py. -/
def WIFI_CONNECT_RETRIES : Nat := 1

/-- How one check_network_access call ended: returned a boolean, or let
the authentication ValueError propagate. -/
inductive CheckResult
  | returned (b : Bool)
  | authRaised
deriving DecidableEq, Repr

/-- Trace of one check_network_access call. -/
structure CheckTrace where
  result : CheckResult
  attemptsMade : Nat
  backoffs : Nat
  retriesFinal : Nat
deriving DecidableEq, Repr

/-- The retry loop of check_network_access.  The loop runs while the
network is not ready and retries has not passed WIFI_CONNECT_RETRIES; a
successful connect returns True; an authentication ValueError is
re-raised at once; any other error increments retries and, once retries
exceeds the bound, breaks, else performs a backoff and loops.  After the
loop the status is re-checked and the boolean returned.  The first Nat is
recursion fuel; the entry point passes WIFI_CONNECT_RETRIES + 2, which
the loop never exhausts since every recursive call increments retries and
the loop stops once retries exceeds WIFI_CONNECT_RETRIES. -/
def checkLoop (env : CheckEnv) : Nat → Nat → Nat → Nat → CheckTrace
  | 0, retries, i, backoffs =>
    { result := CheckResult.returned env.readyAfter, attemptsMade := i,
      backoffs := backoffs, retriesFinal := retries }
  | Nat.succ fuel, retries, i, backoffs =>
    if env.readyBefore i = true || WIFI_CONNECT_RETRIES < retries then
      { result := CheckResult.returned env.readyAfter, attemptsMade := i,
        backoffs := backoffs, retriesFinal := retries }
    else
      match env.attempt i with
      | ConnectOutcome.success =>
        { result := CheckResult.returned true, attemptsMade := i + 1,
          backoffs := backoffs, retriesFinal := retries }
      | ConnectOutcome.authError =>
        { result := CheckResult.authRaised, attemptsMade := i + 1,
          backoffs := backoffs, retriesFinal := retries }
      | ConnectOutcome.connError =>
        if WIFI_CONNECT_RETRIES < retries + 1 then
          { result := CheckResult.returned env.readyAfter,
            attemptsMade := i + 1, backoffs := backoffs,
            retriesFinal := retries + 1 }
        else checkLoop env fuel (retries + 1) (i + 1) (backoffs + 1)

/-- check_network_access: a call that finds the re-entrancy flag set
returns False without any attempt; otherwise the retry loop runs with the
retry counter at 0. -/
def check_network_access (inProgress : Bool) (env : CheckEnv) : CheckTrace :=
  if inProgress then
    { result := CheckResult.returned false, attemptsMade := 0,
      backoffs := 0, retriesFinal := 0 }
  else checkLoop env (WIFI_CONNECT_RETRIES + 2) 0 0 0

/-- Concrete fixture: a never-ready network whose first connect attempt
fails with a retryable error and whose second reports bad
authentication. -/
def demoAuthAfterConn : CheckEnv :=
  { readyBefore := fun _ => false
    attempt := fun i =>
      if i = 0 then ConnectOutcome.connError else ConnectOutcome.authError
    readyAfter := false }

/-- Concrete fixture: a never-ready network whose first connect attempt
reports bad authentication. -/
def demoAuthFirst : CheckEnv :=
  { readyBefore := fun _ => false
    attempt := fun _ => ConnectOutcome.authError
    readyAfter := false }

end WirelessNetwork

/-! Helper lemmas about the DS3231 codec. -/

theorem decimal_to_bcd_eq (d : Int) :
    DS3231.decimal_to_bcd d = d / 10 * 16 + d % 10 := by
  unfold DS3231.decimal_to_bcd
  rw [Int.fdiv_eq_ediv _ (by omega)]
  rfl

theorem daysInMonth_le (y m : Int) : daysInMonth y m ≤ 31 := by
  unfold daysInMonth
  split
  · split <;> omega
  · split <;> omega

theorem bcd_byte (d : Int) (h0 : 0 ≤ d) (h1 : d < 160) :
    DS3231.byteOk (DS3231.decimal_to_bcd d) = true ∧
      (DS3231.decimal_to_bcd d).toNat = d.toNat / 10 * 16 + d.toNat % 10 := by
  rw [decimal_to_bcd_eq, DS3231.byteOk]
  constructor
  · simp only [Bool.and_eq_true, decide_eq_true_eq]
    omega
  · omega

theorem bcd_decode (n : Nat) :
    DS3231.bcd_to_decimal (n / 10 * 16 + n % 10) = n := by
  unfold DS3231.bcd_to_decimal
  have hand : (n / 10 * 16 + n % 10) &&& 0x0F = (n / 10 * 16 + n % 10) % 16 := by
    have h4 := Nat.and_pow_two_sub_one_eq_mod (n / 10 * 16 + n % 10) 4
    norm_num at h4
    exact h4
  rw [hand, Nat.shiftRight_eq_div_pow]
  norm_num
  omega

theorem land_mask_eq_mod (x k : Nat) :
    x &&& (2 ^ k - 1) = x % 2 ^ k :=
  Nat.and_pow_two_sub_one_eq_mod x k

theorem codec_field (d : Int) (k : Nat) (h0 : 0 ≤ d) (h1 : d < 160)
    (hk : d.toNat / 10 * 16 + d.toNat % 10 < 2 ^ k) :
    Int.ofNat (DS3231.bcd_to_decimal
      ((DS3231.decimal_to_bcd d).toNat &&& (2 ^ k - 1))) = d := by
  obtain ⟨_, hval⟩ := bcd_byte d h0 h1
  rw [hval, land_mask_eq_mod, Nat.mod_eq_of_lt hk, bcd_decode d.toNat]
  exact Int.toNat_of_nonneg h0

/-! Helper lemmas about the arbiter. -/

theorem select_time_source_source (st : TimeSource.State) (nm : String)
    (src : TimeSource.SpecificSource) (msg : String) :
    (TimeSource.select_time_source st nm src msg).1.time_source = some src := by
  by_cases h : st.selected_time_source_name = some nm <;>
    simp [TimeSource.select_time_source, h]

theorem select_time_source_no_warn (st : TimeSource.State) (nm : String)
    (src : TimeSource.SpecificSource) (msg : String) :
    (TimeSource.select_time_source st nm src msg).2.any TimeSource.isWarn =
      false := by
  by_cases h : st.selected_time_source_name = some nm <;>
    by_cases hm : msg = "" <;>
      simp [TimeSource.select_time_source, h, hm, TimeSource.isWarn]

theorem select_time_source_events_nil_iff (st : TimeSource.State)
    (nm : String) (src : TimeSource.SpecificSource) (msg : String) :
    (TimeSource.select_time_source st nm src msg).2 = [] ↔
      st.selected_time_source_name = some nm := by
  by_cases h : st.selected_time_source_name = some nm <;>
    by_cases hm : msg = "" <;>
      simp [TimeSource.select_time_source, h, hm]

theorem update_time_source_no_warn (st : TimeSource.State) :
    ((TimeSource.update_time_source st).2.events).any TimeSource.isWarn =
      false := by
  unfold TimeSource.update_time_source
  rcases TimeSource.scanStatusList st.time_sync_status with _ | ⟨nm, src⟩
  · simp only []
    split <;> exact select_time_source_no_warn _ _ _ _
  · exact select_time_source_no_warn _ _ _ _

theorem update_time_source_selects (st : TimeSource.State) :
    (TimeSource.update_time_source st).1.time_source =
        some TimeSource.SpecificSource.externalRtc ∨
      (TimeSource.update_time_source st).1.time_source =
        some TimeSource.SpecificSource.internalRtc := by
  unfold TimeSource.update_time_source
  rcases TimeSource.scanStatusList st.time_sync_status with _ | ⟨nm, src⟩
  · simp only []
    split
    · exact Or.inl (select_time_source_source _ _ _ _)
    · exact Or.inr (select_time_source_source _ _ _ _)
  · cases src
    · exact Or.inl (select_time_source_source _ _ _ _)
    · exact Or.inr (select_time_source_source _ _ _ _)

theorem scan_mkTable_rtc_true (gps ntp prtc : Bool) :
    TimeSource.scanStatusList (TimeSource.mkTable gps ntp true prtc) =
      some ("RTC", TimeSource.SpecificSource.externalRtc) := by
  cases gps <;> simp [TimeSource.mkTable, TimeSource.scanStatusList]

theorem scan_mkTable_prtc_true (gps ntp : Bool) :
    TimeSource.scanStatusList (TimeSource.mkTable gps ntp false true) =
      some ("PRTC", TimeSource.SpecificSource.internalRtc) := by
  cases gps <;> simp [TimeSource.mkTable, TimeSource.scanStatusList]

theorem scan_mkTable_none (gps ntp : Bool) :
    TimeSource.scanStatusList (TimeSource.mkTable gps ntp false false) =
      none := by
  cases gps <;> simp [TimeSource.mkTable, TimeSource.scanStatusList]

/-- C1 counterexample: a state reached by running update_time_source twice
from construction with an external RTC configured and all flags false.
The second call again takes the fallback and again selects the external
RTC, but emits no log line at all (select_time_source only logs when the
selection name changes), and in particular no warning - contradicting the
claim that the fallback selection always comes with a warning logged. -/
theorem claim_C1_counterexample :
    (TimeSource.update_time_source (TimeSource.initState true).1).2.fallback =
        true ∧
      (TimeSource.update_time_source
          (TimeSource.initState true).1).1.time_source =
        some TimeSource.SpecificSource.externalRtc ∧
      (TimeSource.update_time_source (TimeSource.initState true).1).2.events =
        [] ∧
      (TimeSource.initState true).2.events.any TimeSource.isWarn = false := by
  refine ⟨by decide, by decide, by decide, by decide⟩

/-- C1 (amended): update_time_source is a deterministic function of the
status table: with the RTC flag true the external RTC is selected;
otherwise with the PRTC flag true the internal RTC is selected; the NTP
entry is skipped as a non-source (the NTP flag never affects the result);
with neither flag set the fallback selects the external RTC when one is
configured, else the internal RTC, and logs the fallback message at info
level exactly when the selection name changes (never at warning level; no
line at all when the name is unchanged).  In particular the table
{GPS: false, NTP: true, RTC: false, PRTC: true} always selects the
internal RTC. -/
theorem claim_C1_arbiter_selection (gps ntp rtc prtc extConf : Bool)
    (ts0 : Option TimeSource.SpecificSource) (nm0 : Option String) :
    (rtc = true →
      (TimeSource.update_time_source
          (TimeSource.mkState gps ntp rtc prtc extConf ts0 nm0)).1.time_source =
        some TimeSource.SpecificSource.externalRtc ∧
      (TimeSource.update_time_source
          (TimeSource.mkState gps ntp rtc prtc extConf ts0 nm0)).2.fallback =
        false) ∧
    (rtc = false → prtc = true →
      (TimeSource.update_time_source
          (TimeSource.mkState gps ntp rtc prtc extConf ts0 nm0)).1.time_source =
        some TimeSource.SpecificSource.internalRtc ∧
      (TimeSource.update_time_source
          (TimeSource.mkState gps ntp rtc prtc extConf ts0 nm0)).2.fallback =
        false) ∧
    (rtc = false → prtc = false →
      (TimeSource.update_time_source
          (TimeSource.mkState gps ntp rtc prtc extConf ts0 nm0)).2.fallback =
        true ∧
      (TimeSource.update_time_source
          (TimeSource.mkState gps ntp rtc prtc extConf ts0 nm0)).1.time_source =
        some (if extConf then TimeSource.SpecificSource.externalRtc
              else TimeSource.SpecificSource.internalRtc) ∧
      ((TimeSource.update_time_source
          (TimeSource.mkState gps ntp rtc prtc extConf ts0 nm0)).2.events = [] ↔
        nm0 = some (if extConf then "RTC" else "PRTC"))) ∧
    ((TimeSource.update_time_source
        (TimeSource.mkState gps ntp rtc prtc extConf ts0 nm0)).2.events.any
      TimeSource.isWarn = false) := by
  refine ⟨?_, ?_, ?_, update_time_source_no_warn _⟩
  · intro h
    subst h
    constructor
    · rw [TimeSource.update_time_source, TimeSource.mkState,
        scan_mkTable_rtc_true]
      exact select_time_source_source _ _ _ _
    · rw [TimeSource.update_time_source, TimeSource.mkState,
        scan_mkTable_rtc_true]
  · intro h1 h2
    subst h1
    subst h2
    constructor
    · rw [TimeSource.update_time_source, TimeSource.mkState,
        scan_mkTable_prtc_true]
      exact select_time_source_source _ _ _ _
    · rw [TimeSource.update_time_source, TimeSource.mkState,
        scan_mkTable_prtc_true]
  · intro h1 h2
    subst h1
    subst h2
    rw [TimeSource.update_time_source, TimeSource.mkState, scan_mkTable_none]
    cases extConf
    · simp only [Bool.false_eq_true, if_false, ite_false]
      exact ⟨trivial, select_time_source_source _ _ _ _,
        select_time_source_events_nil_iff _ _ _ _⟩
    · simp only [if_true, ite_true]
      exact ⟨trivial, select_time_source_source _ _ _ _,
        select_time_source_events_nil_iff _ _ _ _⟩

/-- C1 witness: at the claim's example table {GPS: false, NTP: true,
RTC: false, PRTC: true}, with an external RTC configured, the internal
RTC is selected and the fallback branch is not taken. -/
theorem claim_C1_witness :
    (TimeSource.update_time_source
        (TimeSource.mkState false true false true true
          (some TimeSource.SpecificSource.internalRtc) none)).1.time_source =
      some TimeSource.SpecificSource.internalRtc :=
  ((claim_C1_arbiter_selection false true false true true
    (some TimeSource.SpecificSource.internalRtc) none).2.1 rfl rfl).1

/-- C7: the arbiter's selection is never left unset - every
update_time_source call ends with either the external or the internal RTC
selected - and on construction, with all sync flags false, the fallback
prefers the external RTC exactly when one is present and initialized,
else the internal RTC. -/
theorem claim_C7_selection_never_unset :
    (∀ st : TimeSource.State,
      (TimeSource.update_time_source st).1.time_source =
          some TimeSource.SpecificSource.externalRtc ∨
        (TimeSource.update_time_source st).1.time_source =
          some TimeSource.SpecificSource.internalRtc) ∧
      (∀ extConf : Bool,
        (TimeSource.initState extConf).1.time_source =
          some (if extConf then TimeSource.SpecificSource.externalRtc
                else TimeSource.SpecificSource.internalRtc)) := by
  refine ⟨update_time_source_selects, ?_⟩
  intro extConf
  cases extConf <;> decide

/-- C2 counterexample: the civil time (1999, 1, 1, 0, 0, 0) satisfies the
CivilTime invariant as the claim states it (which puts no bound on the
year), yet set-then-read does not return the identical 6-tuple: set_time
computes year - 2000 = -1, whose encoding -7 cannot be stored in a
bytearray cell, so the write raises instead of storing anything. -/
theorem claim_C2_counterexample :
    validCivilTime
        { year := 1999, month := 1, day := 1,
          hours := 0, minutes := 0, seconds := 0 } = true ∧
      DS3231.roundTrip
          { year := 1999, month := 1, day := 1,
            hours := 0, minutes := 0, seconds := 0 } ≠
        some { year := 1999, month := 1, day := 1,
               hours := 0, minutes := 0, seconds := 0 } := by
  constructor
  · decide
  · decide

/-- C2 (amended): for every civil time satisfying the CivilTime invariant
whose year moreover lies in [2000, 2159] (the range the year register
codec can represent), setting the DS3231 via its BCD register codec and
reading it back returns the identical 6-tuple. -/
theorem claim_C2_roundtrip_codec (t : CivilTime)
    (hv : validCivilTime t = true)
    (hy0 : 2000 ≤ t.year) (hy1 : t.year ≤ 2159) :
    DS3231.roundTrip t = some t := by
  obtain ⟨y, mo, da, hh, mi, se⟩ := t
  simp only [validCivilTime, Bool.and_eq_true, decide_eq_true_eq] at hv
  obtain ⟨⟨⟨⟨⟨⟨⟨⟨⟨hm1, hm2⟩, hd1⟩, hd2⟩, hh1⟩, hh2⟩, hn1⟩, hn2⟩, hs1⟩, hs2⟩ := hv
  simp only at hy0 hy1 hm1 hm2 hd1 hd2 hh1 hh2 hn1 hn2 hs1 hs2
  have hd31 : da ≤ 31 := le_trans hd2 (daysInMonth_le y mo)
  obtain ⟨hb0, hv0⟩ := bcd_byte se hs1 (by omega)
  obtain ⟨hb1, hv1⟩ := bcd_byte mi hn1 (by omega)
  obtain ⟨hb2, hv2⟩ := bcd_byte hh hh1 (by omega)
  obtain ⟨hb3, hv3⟩ := bcd_byte 0 (by omega) (by omega)
  obtain ⟨hb4, hv4⟩ := bcd_byte da (by omega) (by omega)
  obtain ⟨hb5, hv5⟩ := bcd_byte mo (by omega) (by omega)
  obtain ⟨hb6, hv6⟩ := bcd_byte (y - 2000) (by omega) (by omega)
  have f0 : Int.ofNat (DS3231.bcd_to_decimal
      ((DS3231.decimal_to_bcd se).toNat &&& 127)) = se := by
    have h := codec_field se 7 hs1 (by omega) (by omega)
    norm_num at h
    exact h
  have f1 : Int.ofNat (DS3231.bcd_to_decimal
      ((DS3231.decimal_to_bcd mi).toNat &&& 127)) = mi := by
    have h := codec_field mi 7 hn1 (by omega) (by omega)
    norm_num at h
    exact h
  have f2 : Int.ofNat (DS3231.bcd_to_decimal
      ((DS3231.decimal_to_bcd hh).toNat &&& 63)) = hh := by
    have h := codec_field hh 6 hh1 (by omega) (by omega)
    norm_num at h
    exact h
  have f4 : Int.ofNat (DS3231.bcd_to_decimal
      ((DS3231.decimal_to_bcd da).toNat &&& 63)) = da := by
    have h := codec_field da 6 (by omega) (by omega) (by omega)
    norm_num at h
    exact h
  have f5 : Int.ofNat (DS3231.bcd_to_decimal
      ((DS3231.decimal_to_bcd mo).toNat &&& 31)) = mo := by
    have h := codec_field mo 5 (by omega) (by omega) (by omega)
    norm_num at h
    exact h
  have f6 : Int.ofNat (DS3231.bcd_to_decimal
      (DS3231.decimal_to_bcd (y - 2000)).toNat) + 2000 = y := by
    rw [hv6, bcd_decode]
    show (((y - 2000).toNat : Int)) + 2000 = y
    omega
  simp only [DS3231.roundTrip, DS3231.set_time, hb0, hb1, hb2, hb3, hb4,
    hb5, hb6, Bool.and_self, Bool.true_and, Bool.and_true, if_true,
    Option.map_some, DS3231.read_time]
  simp only [Option.map, DS3231.read_time, Option.some.injEq,
    CivilTime.mk.injEq]
  exact ⟨f6, f5, f4, f2, f1, f0⟩

/-- C2 witness: a concrete leap-day civil time within the representable
year range round trips identically. -/
theorem claim_C2_witness :
    validCivilTime
        { year := 2024, month := 2, day := 29,
          hours := 23, minutes := 59, seconds := 58 } = true ∧
      DS3231.roundTrip
          { year := 2024, month := 2, day := 29,
            hours := 23, minutes := 59, seconds := 58 } =
        some { year := 2024, month := 2, day := 29,
               hours := 23, minutes := 59, seconds := 58 } :=
  ⟨by decide, claim_C2_roundtrip_codec _ (by decide) (by decide) (by decide)⟩

/-- C3 code evaluation, at the failing input for the claim's set_time
half: with the internal RTC selected and a device that never errors,
TimeSource.set_time still raises on its first delegate call - line 141
passes the whole tuple as a single positional argument to the 6-parameter
SpecificTimeSource.set_time, a TypeError - so update_time_source re-runs
on every call and the tuple-unpacked retry of line 146 is the only
delegate call that ever reaches the device.  A genuine device error at
that point propagates without any device-level retry, against the claim
that re-evaluation and the single retry happen only after a device
error. -/
theorem claim_C3_set_time_arity_bug :
    (TimeSource.set_time
        { failFirst := fun _ => false, failRetry := fun _ => false }
        (TimeSource.initState false).1
        { year := 2024, month := 6, day := 1,
          hours := 12, minutes := 0, seconds := 0 }).raised = none ∧
      (TimeSource.set_time
          { failFirst := fun _ => false, failRetry := fun _ => false }
          (TimeSource.initState false).1
          { year := 2024, month := 6, day := 1,
            hours := 12, minutes := 0, seconds := 0 }).updates = 1 ∧
      (TimeSource.set_time
          { failFirst := fun _ => false, failRetry := fun _ => false }
          (TimeSource.initState false).1
          { year := 2024, month := 6, day := 1,
            hours := 12, minutes := 0, seconds := 0 }).attempts.map
        (fun a => a.2.2) =
        [TimeSource.PyOutcome.typeError, TimeSource.PyOutcome.ok] :=
  ⟨rfl, rfl, rfl⟩

/-! Helper lemmas about the NTP client. -/

namespace WirelessNetwork

theorem probeAux_head (answers : String → Option Nat) (servers : List String)
    (start attempt remaining : Nat) (h : 0 < remaining) :
    ((probeAux answers servers start attempt remaining).2).head? =
      some ((start + attempt) % servers.length) := by
  cases remaining
  · omega
  · rw [probeAux]
    cases ha : answers (servers.getD ((start + attempt) % servers.length) "") <;>
      simp [ha]

theorem probeAux_success (answers : String → Option Nat)
    (servers : List String) (start : Nat) (hlen : 0 < servers.length) :
    ∀ (remaining attempt idx ts : Nat) (seq : List Nat),
      probeAux answers servers start attempt remaining = (some (idx, ts), seq) →
      idx < servers.length ∧ seq ≠ [] ∧ seq.getLast? = some idx := by
  intro remaining
  induction remaining with
  | zero =>
    intro attempt idx ts seq h
    simp [probeAux] at h
  | succ rem ih =>
    intro attempt idx ts seq h
    rw [probeAux] at h
    cases ha : answers (servers.getD ((start + attempt) % servers.length) "") with
    | some ts0 =>
      simp only [ha, Prod.mk.injEq, Option.some.injEq] at h
      obtain ⟨⟨hidx, hts⟩, hseq⟩ := h
      subst hidx
      subst hseq
      refine ⟨Nat.mod_lt _ hlen, by simp, by simp⟩
    | none =>
      simp only [ha, Prod.mk.injEq] at h
      obtain ⟨h1, h2⟩ := h
      obtain ⟨hlt, hne, hlast⟩ := ih (attempt + 1) idx ts
        (probeAux answers servers start (attempt + 1) rem).2
        (by rw [← h1])
      refine ⟨hlt, ?_, ?_⟩
      · rw [← h2]
        simp
      · rw [← h2]
        rcases hrest : (probeAux answers servers start (attempt + 1) rem).2 with
          _ | ⟨c, tl⟩
        · rw [hrest] at hne
          exact absurd rfl hne
        · rw [hrest] at hlast
          rw [List.getLast?_cons_cons]
          exact hlast

theorem syncPass_pool_nonempty (env : SyncCallEnv) (s : NtpState)
    (hv : env.valid = true) (hne : s.ntp_servers ≠ []) :
    syncPass env s = passOnPool env s := by
  have hie : s.ntp_servers.isEmpty = false := by
    cases hl : s.ntp_servers
    · exact absurd hl hne
    · rfl
  unfold syncPass
  rw [hv, hie]
  simp

theorem addUnique_nodup (acc : List String) (ip : String)
    (h : acc.Nodup) : (addUnique acc ip).Nodup := by
  unfold addUnique
  split
  · exact h
  · next hni =>
    rw [List.nodup_append]
    exact ⟨h, List.nodup_singleton ip, by
      intro a ha hb
      simp only [List.mem_singleton] at hb
      subst hb
      exact hni ha⟩

theorem foldl_addUnique_nodup :
    ∀ (entries acc : List String), acc.Nodup →
      (entries.foldl addUnique acc).Nodup := by
  intro entries
  induction entries with
  | nil => intro acc h; exact h
  | cons e rest ih => intro acc h; exact ih _ (addUnique_nodup acc e h)

theorem resolveList_nodup (entries : List String) :
    (resolveList entries).Nodup :=
  foldl_addUnique_nodup entries [] List.nodup_nil

theorem refresh_success_props (env : DnsEnv) (s : NtpState)
    (h : (refresh_ntp_servers env s).1 = true) :
    (refresh_ntp_servers env s).2.ntp_servers ≠ [] ∧
      (refresh_ntp_servers env s).2.ntp_servers.Nodup ∧
      (refresh_ntp_servers env s).2.ntp_server_index = 0 ∧
      (refresh_ntp_servers env s).2.ntp_address =
        some ((refresh_ntp_servers env s).2.ntp_servers.headI, 123) := by
  by_cases hvc : env.has_valid_network_config = false
  · unfold refresh_ntp_servers at h
    rw [if_pos hvc] at h
    simp at h
  · rcases henv : env.addrinfo with _ | entries
    · unfold refresh_ntp_servers at h
      rw [if_neg hvc] at h
      simp only [henv] at h
      simp at h
    · rcases hres : resolveList entries with _ | ⟨ip0, rest⟩
      · unfold refresh_ntp_servers at h
        rw [if_neg hvc] at h
        simp only [henv, hres] at h
        simp at h
      · have hnd := resolveList_nodup entries
        rw [hres] at hnd
        unfold refresh_ntp_servers
        rw [if_neg hvc]
        simp only [henv, hres]
        exact ⟨by simp, hnd, by trivial, by trivial⟩

theorem refresh_preserves_prtc (env : DnsEnv) (s : NtpState) :
    (refresh_ntp_servers env s).2.prtc_sync_status = s.prtc_sync_status := by
  by_cases hvc : env.has_valid_network_config = false
  · unfold refresh_ntp_servers
    rw [if_pos hvc]
  · rcases henv : env.addrinfo with _ | entries
    · unfold refresh_ntp_servers
      rw [if_neg hvc]
      simp only [henv]
    · rcases hres : resolveList entries with _ | ⟨ip0, rest⟩ <;>
        · unfold refresh_ntp_servers
          rw [if_neg hvc]
          simp only [henv, hres]

theorem passOnPool_success_inv (env : SyncCallEnv) (s1 : NtpState)
    (ts : Nat) (s2 : NtpState) (seq : List Nat)
    (h : passOnPool env s1 = PassOutcome.success ts s2 seq) :
    s2.ntp_server_index < s2.ntp_servers.length ∧ s2.ntp_servers ≠ [] ∧
      seq.getLast? = some s2.ntp_server_index ∧
      s2.ntp_servers = s1.ntp_servers := by
  unfold passOnPool at h
  split at h
  · simp at h
  · next hlen =>
    have hpos : 0 < s1.ntp_servers.length := Nat.pos_of_ne_zero hlen
    rcases hpa : probeAux env.answers s1.ntp_servers s1.ntp_server_index 0
        s1.ntp_servers.length with ⟨res, sq⟩
    rw [hpa] at h
    cases res with
    | none => simp at h
    | some p =>
      rcases p with ⟨idx, ts0⟩
      simp only [PassOutcome.success.injEq] at h
      obtain ⟨hts, hst, hsq⟩ := h
      obtain ⟨hidx, hne, hlast⟩ :=
        probeAux_success env.answers s1.ntp_servers s1.ntp_server_index hpos
          s1.ntp_servers.length 0 idx ts0 sq hpa
      subst hst
      subst hsq
      exact ⟨hidx, by
        intro hnil
        rw [hnil] at hpos
        simp at hpos, hlast, rfl⟩

theorem passOnPool_exhausted (env : SyncCallEnv) (s1 : NtpState)
    (hne : s1.ntp_servers ≠ [])
    (hex : (probeAux env.answers s1.ntp_servers s1.ntp_server_index 0
      s1.ntp_servers.length).1 = none) :
    passOnPool env s1 = PassOutcome.exhausted s1
      (probeAux env.answers s1.ntp_servers s1.ntp_server_index 0
        s1.ntp_servers.length).2 := by
  have hlen : ¬s1.ntp_servers.length = 0 := by
    cases hl : s1.ntp_servers
    · exact absurd hl hne
    · simp
  unfold passOnPool
  rw [if_neg hlen]
  rcases hpa : probeAux env.answers s1.ntp_servers s1.ntp_server_index 0
      s1.ntp_servers.length with ⟨res, sq⟩
  rw [hpa] at hex
  simp only at hex
  subst hex
  rfl

theorem syncPass_success_source (env : SyncCallEnv) (s : NtpState)
    (ts : Nat) (s2 : NtpState) (seq : List Nat)
    (h : syncPass env s = PassOutcome.success ts s2 seq) :
    ∃ s1, passOnPool env s1 = PassOutcome.success ts s2 seq := by
  unfold syncPass at h
  split at h
  · simp at h
  · split at h
    · by_cases hr : (refresh_ntp_servers env.dns s).1 = false
      · simp only [hr, if_true, if_pos] at h
        simp at h
      · simp only [hr, if_false, if_neg] at h
        exact ⟨_, h⟩
    · exact ⟨s, h⟩

theorem syncPass_success_inv (env : SyncCallEnv) (s : NtpState)
    (ts : Nat) (s2 : NtpState) (seq : List Nat)
    (h : syncPass env s = PassOutcome.success ts s2 seq) :
    s2.ntp_server_index < s2.ntp_servers.length ∧ s2.ntp_servers ≠ [] ∧
      seq.getLast? = some s2.ntp_server_index := by
  obtain ⟨s1, h1⟩ := syncPass_success_source env s ts s2 seq h
  obtain ⟨ha, hb, hc, _⟩ := passOnPool_success_inv env s1 ts s2 seq h1
  exact ⟨ha, hb, hc⟩

theorem length_ne_zero_of_ne_nil (l : List String) (h : l ≠ []) :
    ¬l.length = 0 := by
  cases hl : l
  · exact absurd hl h
  · simp

theorem noRetry_retryRefreshes (env : SyncCallEnv) (s : NtpState) :
    (getTimestampNoRetry env s).retryRefreshes = 0 := by
  unfold getTimestampNoRetry
  rcases hsp : syncPass env s with s1 | ⟨ts, s1, seq⟩ | ⟨s1, seq⟩ <;>
    simp [hsp]

theorem noRetry_probes_le_one (env : SyncCallEnv) (s : NtpState) :
    (getTimestampNoRetry env s).probes.length ≤ 1 := by
  unfold getTimestampNoRetry
  rcases hsp : syncPass env s with s1 | ⟨ts, s1, seq⟩ | ⟨s1, seq⟩ <;>
    simp [hsp]

theorem noRetry_pass (env : SyncCallEnv) (s : NtpState)
    (hv : env.valid = true) (hne : s.ntp_servers ≠ []) :
    (getTimestampNoRetry env s).probes =
      [(probeAux env.answers s.ntp_servers s.ntp_server_index 0
        s.ntp_servers.length).2] ∧
    ((probeAux env.answers s.ntp_servers s.ntp_server_index 0
        s.ntp_servers.length).1 = none →
      (getTimestampNoRetry env s).result = none) := by
  unfold getTimestampNoRetry
  rw [syncPass_pool_nonempty env s hv hne]
  unfold passOnPool
  rw [if_neg (length_ne_zero_of_ne_nil _ hne)]
  rcases hpa : probeAux env.answers s.ntp_servers s.ntp_server_index 0
      s.ntp_servers.length with ⟨res, sq⟩
  cases res with
  | none => simp
  | some p =>
    rcases p with ⟨idx, ts⟩
    simp

theorem withRetry_of_exhausted (env envRetry : SyncCallEnv) (s : NtpState)
    (hv : env.valid = true) (hne : s.ntp_servers ≠ [])
    (hex : (probeAux env.answers s.ntp_servers s.ntp_server_index 0
      s.ntp_servers.length).1 = none) :
    getTimestampWithRetry env envRetry s =
      (if (refresh_ntp_servers env.dns s).1 = true then
        { result := (getTimestampNoRetry envRetry
            (refresh_ntp_servers env.dns s).2).result
          state := (getTimestampNoRetry envRetry
            (refresh_ntp_servers env.dns s).2).state
          probes := (probeAux env.answers s.ntp_servers s.ntp_server_index 0
              s.ntp_servers.length).2 ::
            (getTimestampNoRetry envRetry
              (refresh_ntp_servers env.dns s).2).probes
          retryRefreshes := 1 + (getTimestampNoRetry envRetry
            (refresh_ntp_servers env.dns s).2).retryRefreshes }
      else
        { result := none, state := (refresh_ntp_servers env.dns s).2
          probes := [(probeAux env.answers s.ntp_servers s.ntp_server_index 0
            s.ntp_servers.length).2]
          retryRefreshes := 1 }) := by
  unfold getTimestampWithRetry
  rw [syncPass_pool_nonempty env s hv hne, passOnPool_exhausted env s hne hex]

theorem withRetry_first_probed (env envRetry : SyncCallEnv) (s : NtpState)
    (hv : env.valid = true) (hne : s.ntp_servers ≠ []) :
    firstProbed (getTimestampWithRetry env envRetry s) =
      some (s.ntp_server_index % s.ntp_servers.length) := by
  have hpos : 0 < s.ntp_servers.length :=
    Nat.pos_of_ne_zero (length_ne_zero_of_ne_nil _ hne)
  have hh := probeAux_head env.answers s.ntp_servers s.ntp_server_index 0
    s.ntp_servers.length hpos
  rw [Nat.add_zero] at hh
  unfold getTimestampWithRetry
  rw [syncPass_pool_nonempty env s hv hne]
  unfold passOnPool
  rw [if_neg (length_ne_zero_of_ne_nil _ hne)]
  rcases hpa : probeAux env.answers s.ntp_servers s.ntp_server_index 0
      s.ntp_servers.length with ⟨res, sq⟩
  rw [hpa] at hh
  cases res with
  | none =>
    simp only []
    split <;> simp [firstProbed, hh]
  | some p =>
    rcases p with ⟨idx, ts⟩
    simp [firstProbed, hh]

end WirelessNetwork

/-- C4: server rotation is sticky.  Whenever a sync call returns a valid
timestamp, the final rotation index points into the pool at the server
that gave the valid response (the last index probed), and any following
sync attempt on that state (with a ready network) begins its pool
iteration at exactly that index. -/
theorem claim_C4_sticky_rotation (env envRetry : WirelessNetwork.SyncCallEnv)
    (s : WirelessNetwork.NtpState)
    (h : (WirelessNetwork.getTimestampWithRetry env envRetry s).result.isSome =
      true) :
    (WirelessNetwork.getTimestampWithRetry env envRetry
        s).state.ntp_server_index <
      (WirelessNetwork.getTimestampWithRetry env envRetry
        s).state.ntp_servers.length ∧
    (∃ p, (WirelessNetwork.getTimestampWithRetry env envRetry
        s).probes.getLast? = some p ∧
      p.getLast? = some (WirelessNetwork.getTimestampWithRetry env envRetry
        s).state.ntp_server_index) ∧
    (∀ env2 env2R : WirelessNetwork.SyncCallEnv, env2.valid = true →
      WirelessNetwork.firstProbed (WirelessNetwork.getTimestampWithRetry env2
          env2R (WirelessNetwork.getTimestampWithRetry env envRetry s).state) =
        some (WirelessNetwork.getTimestampWithRetry env envRetry
          s).state.ntp_server_index) := by
  rcases hsp : WirelessNetwork.syncPass env s with s1 | ⟨ts, s1, seq⟩ |
    ⟨s1, seq⟩
  · simp [WirelessNetwork.getTimestampWithRetry, hsp] at h
  · obtain ⟨hlt, hne1, hlast⟩ :=
      WirelessNetwork.syncPass_success_inv env s ts s1 seq hsp
    have houter : WirelessNetwork.getTimestampWithRetry env envRetry s =
        { result := some ts, state := s1, probes := [seq],
          retryRefreshes := 0 } := by
      unfold WirelessNetwork.getTimestampWithRetry
      rw [hsp]
    rw [houter]
    refine ⟨hlt, ⟨seq, rfl, hlast⟩, ?_⟩
    intro env2 env2R hv2
    show WirelessNetwork.firstProbed
        (WirelessNetwork.getTimestampWithRetry env2 env2R s1) =
      some s1.ntp_server_index
    rw [WirelessNetwork.withRetry_first_probed env2 env2R s1 hv2 hne1,
      Nat.mod_eq_of_lt hlt]
  · by_cases hr : (WirelessNetwork.refresh_ntp_servers env.dns s1).1 = true
    · rcases hsp2 : WirelessNetwork.syncPass envRetry
          (WirelessNetwork.refresh_ntp_servers env.dns s1).2 with t1 |
        ⟨ts2, s2, seq2⟩ | ⟨t1, seq2⟩
      · have houter : WirelessNetwork.getTimestampWithRetry env envRetry s =
            { result := none, state := t1, probes := [seq],
              retryRefreshes := 1 } := by
          unfold WirelessNetwork.getTimestampWithRetry
          rw [hsp]
          simp only [hr, if_true, WirelessNetwork.getTimestampNoRetry, hsp2]
        rw [houter] at h
        simp at h
      · obtain ⟨hlt2, hne2, hlast2⟩ :=
          WirelessNetwork.syncPass_success_inv envRetry _ ts2 s2 seq2 hsp2
        have houter : WirelessNetwork.getTimestampWithRetry env envRetry s =
            { result := some ts2, state := s2, probes := [seq, seq2],
              retryRefreshes := 1 } := by
          unfold WirelessNetwork.getTimestampWithRetry
          rw [hsp]
          simp only [hr, if_true, WirelessNetwork.getTimestampNoRetry, hsp2]
        rw [houter]
        refine ⟨hlt2, ⟨seq2, rfl, hlast2⟩, ?_⟩
        intro env2 env2R hv2
        show WirelessNetwork.firstProbed
            (WirelessNetwork.getTimestampWithRetry env2 env2R s2) =
          some s2.ntp_server_index
        rw [WirelessNetwork.withRetry_first_probed env2 env2R s2 hv2 hne2,
          Nat.mod_eq_of_lt hlt2]
      · have houter : WirelessNetwork.getTimestampWithRetry env envRetry s =
            { result := none, state := t1, probes := [seq, seq2],
              retryRefreshes := 1 } := by
          unfold WirelessNetwork.getTimestampWithRetry
          rw [hsp]
          simp only [hr, if_true, WirelessNetwork.getTimestampNoRetry, hsp2]
        rw [houter] at h
        simp at h
    · have houter : WirelessNetwork.getTimestampWithRetry env envRetry s =
          { result := none,
            state := (WirelessNetwork.refresh_ntp_servers env.dns s1).2,
            probes := [seq], retryRefreshes := 1 } := by
        unfold WirelessNetwork.getTimestampWithRetry
        rw [hsp]
        simp [hr]
      rw [houter] at h
      simp at h

/-- C4 witness: from a two-server pool with the rotation index on server
1, where only server "a" (index 0) answers, the sync succeeds, the
rotation index is advanced to the answering index, and a following sync
attempt starts its iteration there. -/
theorem claim_C4_witness :
    (WirelessNetwork.getTimestampWithRetry WirelessNetwork.demoEnvAnswerA
        WirelessNetwork.demoEnvAnswerA
        WirelessNetwork.demoPool).result.isSome = true ∧
    WirelessNetwork.firstProbed (WirelessNetwork.getTimestampWithRetry
        WirelessNetwork.demoEnvAnswerA WirelessNetwork.demoEnvAnswerA
        (WirelessNetwork.getTimestampWithRetry WirelessNetwork.demoEnvAnswerA
          WirelessNetwork.demoEnvAnswerA WirelessNetwork.demoPool).state) =
      some (WirelessNetwork.getTimestampWithRetry
        WirelessNetwork.demoEnvAnswerA WirelessNetwork.demoEnvAnswerA
        WirelessNetwork.demoPool).state.ntp_server_index :=
  ⟨rfl,
    (claim_C4_sticky_rotation WirelessNetwork.demoEnvAnswerA
        WirelessNetwork.demoEnvAnswerA WirelessNetwork.demoPool rfl).2.2
      WirelessNetwork.demoEnvAnswerA WirelessNetwork.demoEnvAnswerA rfl⟩

/-- C5: within one sync call with the DNS-refresh retry enabled, when
every server of the cached pool fails, exactly one re-resolution is
attempted and at most one further full pass runs: a failed re-resolution
ends the call with failure after the single pass, a successful one runs
exactly one retry pass (given the config is still valid), and a second
exhaustion returns failure, with no further re-resolution or pass. -/
theorem claim_C5_dns_refresh_once (env envRetry : WirelessNetwork.SyncCallEnv)
    (s : WirelessNetwork.NtpState) (hv : env.valid = true)
    (hne : s.ntp_servers ≠ [])
    (hex : (WirelessNetwork.probeAux env.answers s.ntp_servers
      s.ntp_server_index 0 s.ntp_servers.length).1 = none) :
    (WirelessNetwork.getTimestampWithRetry env envRetry s).retryRefreshes =
        1 ∧
    (WirelessNetwork.getTimestampWithRetry env envRetry s).probes.length ≤
        2 ∧
    ((WirelessNetwork.refresh_ntp_servers env.dns s).1 = false →
      (WirelessNetwork.getTimestampWithRetry env envRetry s).result = none ∧
      (WirelessNetwork.getTimestampWithRetry env envRetry s).probes.length =
        1) ∧
    ((WirelessNetwork.refresh_ntp_servers env.dns s).1 = true →
      envRetry.valid = true →
      (WirelessNetwork.getTimestampWithRetry env envRetry s).probes.length =
          2 ∧
      ((WirelessNetwork.probeAux envRetry.answers
          (WirelessNetwork.refresh_ntp_servers env.dns s).2.ntp_servers
          (WirelessNetwork.refresh_ntp_servers env.dns s).2.ntp_server_index 0
          (WirelessNetwork.refresh_ntp_servers
            env.dns s).2.ntp_servers.length).1 = none →
        (WirelessNetwork.getTimestampWithRetry env envRetry s).result =
          none)) := by
  rw [WirelessNetwork.withRetry_of_exhausted env envRetry s hv hne hex]
  by_cases hr : (WirelessNetwork.refresh_ntp_servers env.dns s).1 = true
  · rw [if_pos hr]
    have hb := WirelessNetwork.noRetry_probes_le_one envRetry
      (WirelessNetwork.refresh_ntp_servers env.dns s).2
    refine ⟨?_, ?_, ?_, ?_⟩
    · simp [WirelessNetwork.noRetry_retryRefreshes]
    · simp only [List.length_cons]
      omega
    · intro hrf
      rw [hrf] at hr
      simp at hr
    · intro _ hvR
      obtain ⟨hne2, _, _, _⟩ :=
        WirelessNetwork.refresh_success_props env.dns s hr
      obtain ⟨hprobes2, hres2⟩ := WirelessNetwork.noRetry_pass envRetry
        (WirelessNetwork.refresh_ntp_servers env.dns s).2 hvR hne2
      constructor
      · simp [hprobes2]
      · intro hex2
        simp [hres2 hex2]
  · rw [if_neg hr]
    refine ⟨rfl, by simp, fun _ => ⟨rfl, by simp⟩,
      fun htrue => absurd htrue hr⟩

/-- C5 witness: a single-server pool where the server never answers, the
re-resolution succeeds with a fresh single server that also never
answers: one re-resolution, two passes, overall failure. -/
theorem claim_C5_witness :
    (WirelessNetwork.getTimestampWithRetry WirelessNetwork.demoEnvNoAnswer
        WirelessNetwork.demoEnvNoAnswer
        WirelessNetwork.demoPoolSingle).retryRefreshes = 1 ∧
    (WirelessNetwork.getTimestampWithRetry WirelessNetwork.demoEnvNoAnswer
        WirelessNetwork.demoEnvNoAnswer
        WirelessNetwork.demoPoolSingle).probes.length = 2 ∧
    (WirelessNetwork.getTimestampWithRetry WirelessNetwork.demoEnvNoAnswer
        WirelessNetwork.demoEnvNoAnswer
        WirelessNetwork.demoPoolSingle).result = none :=
  ⟨(claim_C5_dns_refresh_once WirelessNetwork.demoEnvNoAnswer
      WirelessNetwork.demoEnvNoAnswer WirelessNetwork.demoPoolSingle rfl
      (by simp [WirelessNetwork.demoPoolSingle]) rfl).1,
    ((claim_C5_dns_refresh_once WirelessNetwork.demoEnvNoAnswer
      WirelessNetwork.demoEnvNoAnswer WirelessNetwork.demoPoolSingle rfl
      (by simp [WirelessNetwork.demoPoolSingle]) rfl).2.2.2 rfl rfl).1,
    ((claim_C5_dns_refresh_once WirelessNetwork.demoEnvNoAnswer
      WirelessNetwork.demoEnvNoAnswer WirelessNetwork.demoPoolSingle rfl
      (by simp [WirelessNetwork.demoPoolSingle]) rfl).2.2.2 rfl rfl).2 rfl⟩

/-- C8: refresh_ntp_servers fails closed: when the network lacks valid
IP/DNS configuration, the DNS lookup raises, or deduplication of the
lookup's entries yields no address, the call returns False and the state
(pool, rotation index, cached address, flags) is left exactly as it
was. -/
theorem claim_C8_refresh_fails_closed (env : WirelessNetwork.DnsEnv)
    (s : WirelessNetwork.NtpState)
    (h : env.has_valid_network_config = false ∨ env.addrinfo = none ∨
      ∃ entries, env.addrinfo = some entries ∧
        WirelessNetwork.resolveList entries = []) :
    WirelessNetwork.refresh_ntp_servers env s = (false, s) := by
  rcases h with h | h | ⟨entries, he, hrl⟩
  · unfold WirelessNetwork.refresh_ntp_servers
    rw [if_pos h]
  · by_cases hv : env.has_valid_network_config = false
    · unfold WirelessNetwork.refresh_ntp_servers
      rw [if_pos hv]
    · unfold WirelessNetwork.refresh_ntp_servers
      rw [if_neg hv]
      simp only [h]
  · by_cases hv : env.has_valid_network_config = false
    · unfold WirelessNetwork.refresh_ntp_servers
      rw [if_pos hv]
    · unfold WirelessNetwork.refresh_ntp_servers
      rw [if_neg hv]
      simp only [he, hrl]

/-- C8 witness: with no valid network configuration, refreshing over a
previously cached two-server pool returns False and leaves the cached
pool, index and address untouched. -/
theorem claim_C8_witness :
    WirelessNetwork.refresh_ntp_servers
        { has_valid_network_config := false, addrinfo := none }
        WirelessNetwork.demoPool = (false, WirelessNetwork.demoPool) :=
  claim_C8_refresh_fails_closed
    { has_valid_network_config := false, addrinfo := none }
    WirelessNetwork.demoPool (Or.inl rfl)

/-- C10: every successful refresh_ntp_servers call leaves a non-empty,
duplicate-free pool, resets the rotation index to 0 and caches the first
server with the NTP port; consequently the mid-sync re-resolution after a
pool exhaustion discards the sticky index and the retry pass starts its
iteration at pool index 0. -/
theorem claim_C10_refresh_resets_rotation :
    (∀ (env : WirelessNetwork.DnsEnv) (s : WirelessNetwork.NtpState),
      (WirelessNetwork.refresh_ntp_servers env s).1 = true →
      (WirelessNetwork.refresh_ntp_servers env s).2.ntp_servers ≠ [] ∧
      (WirelessNetwork.refresh_ntp_servers env s).2.ntp_servers.Nodup ∧
      (WirelessNetwork.refresh_ntp_servers env s).2.ntp_server_index = 0 ∧
      (WirelessNetwork.refresh_ntp_servers env s).2.ntp_address =
        some ((WirelessNetwork.refresh_ntp_servers env s).2.ntp_servers.headI,
          123)) ∧
    (∀ (env envRetry : WirelessNetwork.SyncCallEnv)
      (s : WirelessNetwork.NtpState), env.valid = true →
      s.ntp_servers ≠ [] →
      (WirelessNetwork.probeAux env.answers s.ntp_servers s.ntp_server_index
        0 s.ntp_servers.length).1 = none →
      (WirelessNetwork.refresh_ntp_servers env.dns s).1 = true →
      envRetry.valid = true →
      ∃ p1 p2,
        (WirelessNetwork.getTimestampWithRetry env envRetry s).probes =
          [p1, p2] ∧ p2.head? = some 0) := by
  refine ⟨WirelessNetwork.refresh_success_props, ?_⟩
  intro env envRetry s hv hne hex hr hvR
  rw [WirelessNetwork.withRetry_of_exhausted env envRetry s hv hne hex,
    if_pos hr]
  obtain ⟨hne2, _, hidx2, _⟩ :=
    WirelessNetwork.refresh_success_props env.dns s hr
  obtain ⟨hprobes2, _⟩ := WirelessNetwork.noRetry_pass envRetry
    (WirelessNetwork.refresh_ntp_servers env.dns s).2 hvR hne2
  have hpos2 : 0 <
      (WirelessNetwork.refresh_ntp_servers env.dns s).2.ntp_servers.length :=
    Nat.pos_of_ne_zero (WirelessNetwork.length_ne_zero_of_ne_nil _ hne2)
  have hh := WirelessNetwork.probeAux_head envRetry.answers
    (WirelessNetwork.refresh_ntp_servers env.dns s).2.ntp_servers
    (WirelessNetwork.refresh_ntp_servers env.dns s).2.ntp_server_index 0
    (WirelessNetwork.refresh_ntp_servers env.dns s).2.ntp_servers.length
    hpos2
  rw [Nat.add_zero, hidx2, Nat.zero_mod] at hh
  rw [hidx2] at hprobes2
  refine ⟨(WirelessNetwork.probeAux env.answers s.ntp_servers
      s.ntp_server_index 0 s.ntp_servers.length).2,
    (WirelessNetwork.probeAux envRetry.answers
      (WirelessNetwork.refresh_ntp_servers env.dns s).2.ntp_servers 0 0
      (WirelessNetwork.refresh_ntp_servers env.dns
        s).2.ntp_servers.length).2, ?_, hh⟩
  simp [hprobes2]

/-! Helper lemmas about the connection check and wait_status. -/

theorem checkLoop_auth (env : WirelessNetwork.CheckEnv) :
    ∀ (k fuel retries i backoffs : Nat),
      (∀ j, j < k → env.readyBefore (i + j) = false ∧
        env.attempt (i + j) = WirelessNetwork.ConnectOutcome.connError) →
      env.readyBefore (i + k) = false →
      env.attempt (i + k) = WirelessNetwork.ConnectOutcome.authError →
      retries + k ≤ WirelessNetwork.WIFI_CONNECT_RETRIES →
      k < fuel →
      WirelessNetwork.checkLoop env fuel retries i backoffs =
        { result := WirelessNetwork.CheckResult.authRaised,
          attemptsMade := i + k + 1, backoffs := backoffs + k,
          retriesFinal := retries + k } := by
  intro k
  induction k with
  | zero =>
    intro fuel retries i backoffs hprev hready hauth hret hfuel
    cases fuel with
    | zero => omega
    | succ f =>
      rw [Nat.add_zero] at hready hauth
      have hnr : ¬WirelessNetwork.WIFI_CONNECT_RETRIES < retries := by
        unfold WirelessNetwork.WIFI_CONNECT_RETRIES at hret ⊢
        omega
      unfold WirelessNetwork.checkLoop
      rw [hready, hauth]
      simp [hnr]
  | succ k ih =>
    intro fuel retries i backoffs hprev hready hauth hret hfuel
    cases fuel with
    | zero => omega
    | succ f =>
      obtain ⟨hr0, ha0⟩ := hprev 0 (Nat.succ_pos k)
      rw [Nat.add_zero] at hr0 ha0
      have hnr : ¬WirelessNetwork.WIFI_CONNECT_RETRIES < retries := by
        unfold WirelessNetwork.WIFI_CONNECT_RETRIES at hret ⊢
        omega
      have hnr1 : ¬WirelessNetwork.WIFI_CONNECT_RETRIES < retries + 1 := by
        unfold WirelessNetwork.WIFI_CONNECT_RETRIES at hret ⊢
        omega
      unfold WirelessNetwork.checkLoop
      rw [hr0, ha0]
      simp only [hnr, hnr1, Bool.false_eq_true, if_false, decide_False,
        Bool.false_or, decide_eq_true_eq, if_neg]
      have hrec := ih f (retries + 1) (i + 1) (backoffs + 1)
        (fun j hj => by
          have hh := hprev (j + 1) (by omega)
          rwa [show i + (j + 1) = i + 1 + j by omega] at hh)
        (by rwa [show i + 1 + k = i + (k + 1) by omega])
        (by rwa [show i + 1 + k = i + (k + 1) by omega])
        (by omega) (by omega)
      rw [hrec]
      simp only [WirelessNetwork.CheckTrace.mk.injEq]
      refine ⟨trivial, by omega, by omega, by omega⟩

theorem waitStatusAux_auth (f : Nat → Int) (e : Int)
    (he : ¬e = WirelessNetwork.CYW43_LINK_BADAUTH) :
    ∀ (k idx polls : Nat),
      (∀ j, j < k → f (idx + j) ≠ e ∧
        f (idx + j) ≠ WirelessNetwork.CYW43_LINK_BADAUTH ∧
        f (idx + j) ≠ WirelessNetwork.CYW43_LINK_FAIL ∧
        f (idx + j) ≠ WirelessNetwork.CYW43_LINK_NONET) →
      f (idx + k) = WirelessNetwork.CYW43_LINK_BADAUTH → k < polls →
      WirelessNetwork.waitStatusAux f e idx polls =
        WirelessNetwork.WaitResult.raisedAuth := by
  intro k
  induction k with
  | zero =>
    intro idx polls hprev hbad hlt
    cases polls with
    | zero => omega
    | succ rest =>
      rw [Nat.add_zero] at hbad
      unfold WirelessNetwork.waitStatusAux
      rw [hbad, if_neg (fun hh => he hh.symm), if_pos rfl]
  | succ k ih =>
    intro idx polls hprev hbad hlt
    cases polls with
    | zero => omega
    | succ rest =>
      obtain ⟨hne, hnb, hnf, hnn⟩ := hprev 0 (Nat.succ_pos k)
      rw [Nat.add_zero] at hne hnb hnf hnn
      unfold WirelessNetwork.waitStatusAux
      rw [if_neg hne, if_neg hnb, if_neg (by simp [hnf, hnn])]
      exact ih (idx + 1) rest
        (fun j hj => by
          have hh := hprev (j + 1) (by omega)
          rwa [show idx + (j + 1) = idx + 1 + j by omega] at hh)
        (by rwa [show idx + 1 + k = idx + (k + 1) by omega]) (by omega)

/-- C6 counterexample: a run of the connection check whose first connect
attempt fails with a retryable error (incrementing the retry counter to 1
and performing one backoff) and whose second attempt reports bad
authentication: the authentication error is raised, but the retry counter
does not stay at its initial value 0 and a backoff delay was performed in
the call - contradicting the claim as stated. -/
theorem claim_C6_counterexample :
    (WirelessNetwork.check_network_access false
        WirelessNetwork.demoAuthAfterConn).result =
      WirelessNetwork.CheckResult.authRaised ∧
    (WirelessNetwork.check_network_access false
        WirelessNetwork.demoAuthAfterConn).retriesFinal = 1 ∧
    (WirelessNetwork.check_network_access false
        WirelessNetwork.demoAuthAfterConn).backoffs = 1 ∧
    (WirelessNetwork.check_network_access false
        WirelessNetwork.demoAuthAfterConn).attemptsMade = 2 :=
  ⟨rfl, rfl, rfl, rfl⟩

/-- C6 (amended): a bad-authentication report is terminal for the call:
when attempt k of check_network_access reports bad authentication (after
k retryable failures), the authentication error is raised immediately -
no further connection attempt is made, no backoff follows it (the k
backoffs all preceded it), and the retry counter is not incremented by it
(it stays at the k accumulated by the earlier retryable failures; in
particular, at its initial value 0 when the first attempt reports bad
authentication).  Moreover wait_status raises the authentication error as
soon as it observes the BADAUTH status. -/
theorem claim_C6_auth_fails_fast (env : WirelessNetwork.CheckEnv) (k : Nat)
    (hk : k ≤ WirelessNetwork.WIFI_CONNECT_RETRIES)
    (hprev : ∀ j, j < k → env.readyBefore j = false ∧
      env.attempt j = WirelessNetwork.ConnectOutcome.connError)
    (hready : env.readyBefore k = false)
    (hauth : env.attempt k = WirelessNetwork.ConnectOutcome.authError) :
    WirelessNetwork.check_network_access false env =
      { result := WirelessNetwork.CheckResult.authRaised,
        attemptsMade := k + 1, backoffs := k, retriesFinal := k } ∧
    (∀ (f : Nat → Int) (e : Int) (n i : Nat),
      ¬e = WirelessNetwork.CYW43_LINK_BADAUTH →
      (∀ j, j < i → f j ≠ e ∧ f j ≠ WirelessNetwork.CYW43_LINK_BADAUTH ∧
        f j ≠ WirelessNetwork.CYW43_LINK_FAIL ∧
        f j ≠ WirelessNetwork.CYW43_LINK_NONET) →
      f i = WirelessNetwork.CYW43_LINK_BADAUTH → i < n →
      WirelessNetwork.wait_status f e n =
        WirelessNetwork.WaitResult.raisedAuth) := by
  constructor
  · unfold WirelessNetwork.check_network_access
    rw [if_neg (by simp)]
    have hrun := checkLoop_auth env k
      (WirelessNetwork.WIFI_CONNECT_RETRIES + 2) 0 0 0
      (fun j hj => by simpa using hprev j hj) (by simpa using hready)
      (by simpa using hauth) (by omega) (by omega)
    simpa using hrun
  · intro f e n i he hprev2 hbad hlt
    exact waitStatusAux_auth f e he i 0 n
      (fun j hj => by simpa using hprev2 j hj) (by simpa using hbad) hlt

/-- C6 witness: bad authentication on the very first attempt: the
authentication error propagates with the retry counter still 0, no
backoff, and exactly one attempt made. -/
theorem claim_C6_witness :
    WirelessNetwork.check_network_access false WirelessNetwork.demoAuthFirst =
      { result := WirelessNetwork.CheckResult.authRaised, attemptsMade := 1,
        backoffs := 0, retriesFinal := 0 } :=
  (claim_C6_auth_fails_fast WirelessNetwork.demoAuthFirst 0 (by omega)
    (fun j hj => absurd hj (Nat.not_lt_zero j)) rfl rfl).1

/-- C10 witness: the pool exhaustion scenario of the C5 witness: the
refresh resets the index and the retry pass starts at pool index 0. -/
theorem claim_C10_witness :
    (WirelessNetwork.refresh_ntp_servers WirelessNetwork.demoEnvNoAnswer.dns
        WirelessNetwork.demoPoolSingle).2.ntp_server_index = 0 ∧
    (∃ p1 p2,
      (WirelessNetwork.getTimestampWithRetry WirelessNetwork.demoEnvNoAnswer
          WirelessNetwork.demoEnvNoAnswer
          WirelessNetwork.demoPoolSingle).probes = [p1, p2] ∧
        p2.head? = some 0) :=
  ⟨(claim_C10_refresh_resets_rotation.1 WirelessNetwork.demoEnvNoAnswer.dns
      WirelessNetwork.demoPoolSingle rfl).2.2.1,
    claim_C10_refresh_resets_rotation.2 WirelessNetwork.demoEnvNoAnswer
      WirelessNetwork.demoEnvNoAnswer WirelessNetwork.demoPoolSingle rfl
      (by simp [WirelessNetwork.demoPoolSingle]) rfl rfl rfl⟩

/-! Helper lemmas for the PRTC-flag invariant. -/

theorem step_prtc (s : WirelessNetwork.NtpState)
    (e : WirelessNetwork.NetEvent) :
    (WirelessNetwork.step s e).prtc_sync_status =
      (s.prtc_sync_status || WirelessNetwork.isSuccess e) := by
  cases e <;> simp [WirelessNetwork.step, WirelessNetwork.isSuccess,
    WirelessNetwork.refresh_preserves_prtc]

theorem runEvents_prtc_mono (evs : List WirelessNetwork.NetEvent) :
    ∀ s : WirelessNetwork.NtpState, s.prtc_sync_status = true →
      (WirelessNetwork.runEvents s evs).prtc_sync_status = true := by
  induction evs with
  | nil => intro s h; exact h
  | cons e rest ih =>
    intro s h
    unfold WirelessNetwork.runEvents
    exact ih _ (by rw [step_prtc, h, Bool.true_or])

theorem set_mkTable_ntp (gps ntp rtc prtc b : Bool) :
    TimeSource.set_time_sync_status (TimeSource.mkTable gps ntp rtc prtc)
      "NTP" b = TimeSource.mkTable gps b rtc prtc := by
  simp [TimeSource.mkTable, TimeSource.set_time_sync_status]

theorem set_mkTable_prtc (gps ntp rtc prtc b : Bool) :
    TimeSource.set_time_sync_status (TimeSource.mkTable gps ntp rtc prtc)
      "PRTC" b = TimeSource.mkTable gps ntp rtc b := by
  simp [TimeSource.mkTable, TimeSource.set_time_sync_status]

theorem checker_iteration_prtc_no_fallback
    (gps ntp rtc prtc extConf ntpS : Bool)
    (ts0 : Option TimeSource.SpecificSource) (nm0 : Option String) :
    (TimeSource.checker_iteration
      (TimeSource.mkState gps ntp rtc prtc extConf ts0 nm0) ntpS
      true).2.fallback = false := by
  unfold TimeSource.checker_iteration
  simp only [TimeSource.mkState, set_mkTable_ntp, set_mkTable_prtc]
  cases rtc
  · rw [TimeSource.update_time_source, scan_mkTable_prtc_true]
  · rw [TimeSource.update_time_source, scan_mkTable_rtc_true]

/-- C9: the prtc_sync_status flag is monotone.  It starts false, the only
event that makes it true is the successful-sync branch, and no event of
WirelessNetwork resets it (failures clear only ntp_sync_status): once a
sync has succeeded it stays true over every later event sequence.
Consequently, once the periodic checker has copied the flag (true) into
the arbiter's table, update_time_source selects via a flag and its
logged-warning fallback branch is not taken. -/
theorem claim_C9_prtc_monotone :
    WirelessNetwork.initNtpState.prtc_sync_status = false ∧
    (∀ (s : WirelessNetwork.NtpState) (e : WirelessNetwork.NetEvent),
      (WirelessNetwork.step s e).prtc_sync_status =
        (s.prtc_sync_status || WirelessNetwork.isSuccess e)) ∧
    (∀ (s : WirelessNetwork.NtpState)
      (evs : List WirelessNetwork.NetEvent), s.prtc_sync_status = true →
      (WirelessNetwork.runEvents s evs).prtc_sync_status = true) ∧
    (∀ (gps ntp rtc prtc extConf ntpS : Bool)
      (ts0 : Option TimeSource.SpecificSource) (nm0 : Option String),
      (TimeSource.checker_iteration
        (TimeSource.mkState gps ntp rtc prtc extConf ts0 nm0) ntpS
        true).2.fallback = false) :=
  ⟨rfl, step_prtc, fun s evs h => runEvents_prtc_mono evs s h,
    checker_iteration_prtc_no_fallback⟩

/-- C9 witness: after one successful sync, a later raised sync and a
later failed timestamp fetch leave prtc_sync_status true. -/
theorem claim_C9_witness :
    (WirelessNetwork.runEvents
      (WirelessNetwork.step WirelessNetwork.initNtpState
        (WirelessNetwork.NetEvent.syncSucceeded 5))
      [WirelessNetwork.NetEvent.syncRaised,
        WirelessNetwork.NetEvent.syncTimestampFailed]).prtc_sync_status =
      true :=
  claim_C9_prtc_monotone.2.2.1 _ _ rfl

end PicoClock
